import Mathlib

/-!
Verification of `drradif.py` — a single-shot "Persian music prescription" tool.

The program builds one chat request (a fixed knowledge-base system message, the
user's text, and schema instructions), submits it once to an external reasoning
service, and validates the response against a six-field record.  We embed the
program shallowly: the external service is a parameter (an arbitrary function
from the request to an outcome), and `get_persian_music_prescription` returns
its Python result together with the list of service invocations it performed.
-/

namespace DrRadif

/-- The structured output record (`class MusicPrescription(BaseModel)`). -/
structure MusicPrescription where
  diagnosis : String
  mode_name : String
  archetype : String
  neuroscience_mechanism : String
  search_query : String
  activity_suggestion : String
deriving Repr, DecidableEq

/-- The declared schema of `MusicPrescription`: field names with the
`Field(description=...)` texts, in declaration order. -/
def musicPrescriptionSchema : List (String × String) :=
  [ ("diagnosis", "A brief, empathetic analysis of the user's emotional state."),
    ("mode_name", "The name of the Dastgah or Avaz prescribed (e.g., 'Avaz-e Dashti')."),
    ("archetype", "The archetype of this mode (e.g., 'The Shepherd', 'The Warrior', 'The Hacker')."),
    ("neuroscience_mechanism", "The scientific explanation of why this works (e.g., Dopamine, Prolactin, Beta waves)."),
    ("search_query", "A specific search string for YouTube/Spotify (e.g., 'Kayhan Kalhor Dashti Improvisation')."),
    ("activity_suggestion", "What the user should do while listening.") ]

/-- The six required field names of the schema. -/
def requiredFieldNames : List String := musicPrescriptionSchema.map Prod.fst

/-- A JSON value, as produced by decoding the service's raw text response. -/
inductive Json where
  | str : String → Json
  | num : Int → Json
  | bool : Bool → Json
  | null : Json
  | arr : List Json → Json
  | obj : List (String × Json) → Json

/-- Field lookup on a JSON value: `none` unless the value is an object
containing the key. -/
def lookupField (j : Json) (name : String) : Option Json :=
  match j with
  | .obj fields => fields.lookup name
  | _ => none

/-- Reads a field that must be a JSON string; `none` when the field is missing
or has a non-string shape (pydantic v2 does not coerce objects or numbers into
`str`). -/
def getStrField (j : Json) (name : String) : Option String :=
  match lookupField j name with
  | some (.str s) => some s
  | _ => none

/-- pydantic validation of a decoded JSON value against `MusicPrescription`:
every declared field must be present and be a string, otherwise validation
fails.  (Extra keys are ignored, as pydantic does by default.) -/
def validateMusicPrescription (j : Json) : Except String MusicPrescription :=
  match getStrField j "diagnosis", getStrField j "mode_name", getStrField j "archetype",
        getStrField j "neuroscience_mechanism", getStrField j "search_query",
        getStrField j "activity_suggestion" with
  | some d, some mn, some ar, some nm, some sq, some ac =>
      .ok { diagnosis := d, mode_name := mn, archetype := ar,
            neuroscience_mechanism := nm, search_query := sq,
            activity_suggestion := ac }
  | _, _, _, _, _, _ =>
      .error "Failed to parse MusicPrescription from completion"

/-- The raw text returned by the service, abstracted by whether a JSON value
can be extracted from it: `jsonText j` is a response from which the output
parser decodes the JSON value `j`; `prose t` is text (e.g. plain prose) with
no decodable JSON in it. -/
inductive RawResponse where
  | jsonText : Json → RawResponse
  | prose : String → RawResponse

/-- The parse step `PydanticOutputParser(pydantic_object=MusicPrescription)`:
decode JSON out of the raw text (failing on plain prose), then run pydantic
validation.  Any failure is an `OutputParserException`, carried here as the
`Except.error` message. -/
def parsePrescriptionOutput : RawResponse → Except String MusicPrescription
  | .prose t => .error ("Invalid json output: " ++ t)
  | .jsonText j => validateMusicPrescription j

/-- One chat message of the prompt. -/
inductive ChatMessage where
  | system : String → ChatMessage
  | human : String → ChatMessage
deriving Repr, DecidableEq

/-- The `ChatOpenAI(...)` configuration built on every call.  `temperature`
is the exact literal `0.7` (as a rational); `streaming` is the constructor's
default `False`, and the chain is run with a single `invoke`. -/
structure ChatOpenAIConfig where
  temperature : ℚ
  model : String
  openai_api_key : String
  streaming : Bool
deriving Repr, DecidableEq

/-- A full request to the external reasoning service: the client
configuration plus the rendered prompt messages. -/
structure ChatRequest where
  config : ChatOpenAIConfig
  messages : List ChatMessage
deriving Repr, DecidableEq

/-- What one submission to the external service does: either it yields a raw
text response, or it raises an exception (network failure, rate limit, auth
rejection, model error, ...) whose text is carried. -/
inductive ServiceOutcome where
  | response : RawResponse → ServiceOutcome
  | exception : String → ServiceOutcome

/-- Variable lookup for template rendering (the `invoke` dictionary). -/
def lookupVar (vars : List (String × String)) (name : String) : String :=
  (vars.lookup name).getD ""

/-- Single-pass f-string rendering, one character at a time.  Outside a
placeholder (`acc = none`) characters are copied; `\x7b` opens a placeholder;
inside one (`acc = some cs`) characters accumulate until `\x7d`, which splices
the variable's value.  Substituted values are not re-scanned, matching
`str.format` single-pass semantics. -/
def fmtGo (vars : List (String × String)) : List Char → Option (List Char) → List Char
  | [], _ => []
  | c :: rest, none =>
      if c = '{' then fmtGo vars rest (some [])
      else c :: fmtGo vars rest none
  | c :: rest, some acc =>
      if c = '}' then (lookupVar vars (String.mk acc)).data ++ fmtGo vars rest none
      else fmtGo vars rest (some (acc ++ [c]))

/-- Renders a prompt template against the variables passed to `invoke`. -/
def formatTemplate (template : String) (vars : List (String × String)) : String :=
  String.mk (fmtGo vars template.data none)

/-- The constant `PHARMACOPEIA_CONTEXT`: the knowledge base, verbatim from
the source, written here line by line (the concatenation is character-for-
character the Python triple-quoted literal, leading and trailing newlines
included). -/
def PHARMACOPEIA_CONTEXT : String :=
  "\n" ++
  "You are 'Dr. Radif', a highly sophisticated Music Therapist specializing in the neuroscience of Persian Traditional Music. \n" ++
  "Your goal is to analyze the user's context/mood and prescribe the exact Persian musical mode (Dastgah or Avaz) to regulate their nervous system.\n" ++
  "\n" ++
  "Use this internal Pharmacopeia (Knowledge Base) to make your decision:\n" ++
  "\n" ++
  "1. **CONTEXT: Grief, Depression, Broken Heart, Rain**\n" ++
  "   - **RX:** Avaz-e Dashti (The Shepherd)\n" ++
  "   - **Mechanism:** Mimics human crying frequencies; triggers Prolactin release for 'The Good Cry'.\n" ++
  "\n" ++
  "2. **CONTEXT: Morning, Low Energy, Need Motivation, Sunrise**\n" ++
  "   - **RX:** Dastgah-e Mahur (The Sunrise) or Chahargah (The Warrior)\n" ++
  "   - **Mechanism:** Mahur triggers Dopamine (joy). Chahargah triggers Adrenaline (power/fight-or-flight).\n" ++
  "\n" ++
  "3. **CONTEXT: Nostalgia, Missing Home, Sunset, Autumn, Romantic Longing**\n" ++
  "   - **RX:** Avaz-e Bayat-e Isfahan (The Mystic) or Segah\n" ++
  "   - **Mechanism:** Uses microtones that stimulate the Hippocampus (memory) and Default Mode Network. Creates 'Saudade'.\n" ++
  "\n" ++
  "4. **CONTEXT: Anxiety, Panic, Chaos, Overwhelmed**\n" ++
  "   - **RX:** Dastgah-e Homayoun (The King)\n" ++
  "   - **Mechanism:** Majestic and gravity-heavy. Forces brainwaves from erratic Beta to focused Alpha. Grounding.\n" ++
  "\n" ++
  "5. **CONTEXT: Deep Focus, Coding, Math, Logic Work**\n" ++
  "   - **RX:** Dastgah-e Nava (The Mathematician) or Rast-Panjgah\n" ++
  "   - **Mechanism:** Complex, repetitive, chant-like structures. Stabilizes High-Beta waves. Creates 'Flow State'.\n" ++
  "\n" ++
  "6. **CONTEXT: Insomnia, Bedtime, Racing Thoughts**\n" ++
  "   - **RX:** Avaz-e Abu Ata (The Philosopher)\n" ++
  "   - **Mechanism:** Low-frequency bias, no sudden climaxes. Induces Delta waves.\n" ++
  "\n" ++
  "7. **CONTEXT: Vacation, Nature, Reset, Decompression**\n" ++
  "   - **RX:** Bayat-e Tork (The Traveler) or Afshari\n" ++
  "   - **Mechanism:** Linked to Sufi storytelling and open horizons. Breaks the urban 'grid'.\n" ++
  "\n" ++
  "**INSTRUCTIONS:**\n" ++
  "- Analyze the user's input for emotional nuance (e.g., 'bittersweet' is Isfahan, 'crushed' is Dashti).\n" ++
  "- Return the output strictly in the requested JSON format.\n"

/-- The human-message template passed to
`HumanMessagePromptTemplate.from_template`, verbatim. -/
def humanTemplate : String :=
  "PATIENT SYMPTOMS: {input}\n\nAnalyze the symptoms and provide the prescription.\n{format_instructions}"

/-- Modelled library behavior (`parser.get_format_instructions()`): a fixed
instruction text embedding the JSON schema of `MusicPrescription`, listing
exactly its six required fields. -/
def get_format_instructions : String :=
  "The output should be formatted as a JSON instance that conforms to the JSON schema below."
    ++ " Required properties: " ++ String.intercalate ", " requiredFieldNames ++ "."

/-- The variables handed to `chain.invoke`. -/
def invokeVars (user_input : String) : List (String × String) :=
  [("input", user_input), ("format_instructions", get_format_instructions)]

/-- The prompt `ChatPromptTemplate.from_messages([...])` rendered against
the `invoke` variables: the system template is the knowledge base, the human
template the patient-symptoms text. -/
def promptMessages (vars : List (String × String)) : List ChatMessage :=
  [ .system (formatTemplate PHARMACOPEIA_CONTEXT vars),
    .human (formatTemplate humanTemplate vars) ]

/-- The `ChatOpenAI` client built on each call. -/
def mkChatOpenAI (openai_api_key : String) : ChatOpenAIConfig :=
  { temperature := 7/10, model := "gpt-4-turbo",
    openai_api_key := openai_api_key, streaming := false }

/-- The single request that `chain.invoke` submits to the service. -/
def mkRequest (user_input openai_api_key : String) : ChatRequest :=
  { config := mkChatOpenAI openai_api_key,
    messages := promptMessages (invokeVars user_input) }

/-- The caller-facing result of `get_persian_music_prescription`: Python
returns either a `MusicPrescription` instance or the plain string
`"Error: " + str(e)`, distinguished only by runtime type. -/
inductive CallResult where
  | prescription : MusicPrescription → CallResult
  | errorString : String → CallResult
deriving Repr, DecidableEq

/-- The function `get_persian_music_prescription(user_input, openai_api_key)`.
The external service is the parameter `service`; the function returns the
Python result paired with the list of service invocations it performed (the
chain calls the service exactly once, and the `try` block turns any exception
`e` into the string `"Error: " + str(e)`). -/
def get_persian_music_prescription (user_input openai_api_key : String)
    (service : ChatRequest → ServiceOutcome) : CallResult × List ChatRequest :=
  let req := mkRequest user_input openai_api_key
  match service req with
  | .exception e => (.errorString ("Error: " ++ e), [req])
  | .response raw =>
      match parsePrescriptionOutput raw with
      | .ok result => (.prescription result, [req])
      | .error e => (.errorString ("Error: " ++ e), [req])

/-- A sequence of independent calls, as the `__main__` scenario loop makes
them: each call is a fresh invocation with its own input. -/
def runCalls (openai_api_key : String) (service : ChatRequest → ServiceOutcome)
    (inputs : List String) : List CallResult :=
  inputs.map fun i => (get_persian_music_prescription i openai_api_key service).1

/-- The four hard-coded demo inputs of `__main__`. -/
def user_scenarios : List String :=
  [ "I have to write 500 lines of Python code and I'm distracted.",
    "I just went through a breakup and it's raining outside.",
    "I'm feeling super anxious about a meeting and my heart is racing.",
    "I'm on a road trip in the desert and feeling philosophical." ]

/-- What the `__main__` block does overall. -/
inductive MainOutcome where
  | configError : String → MainOutcome
  | ran : List CallResult → MainOutcome

/-- The `__main__` block: read `OPENAI_API_KEY`; if it is absent or falsy
(the empty string), print the configuration message and stop; otherwise run
the four scenarios.  Paired with the list of all service invocations made. -/
def mainProgram (env_key : Option String) (service : ChatRequest → ServiceOutcome) :
    MainOutcome × List ChatRequest :=
  match env_key with
  | none => (.configError "Please set your OPENAI_API_KEY environment variable.", [])
  | some k =>
      if k = "" then
        (.configError "Please set your OPENAI_API_KEY environment variable.", [])
      else
        let results := user_scenarios.map
          fun s => get_persian_music_prescription s k service
        (.ran (results.map Prod.fst), (results.map Prod.snd).flatten)

/-! ### Helper fixtures: concrete service behaviors for concrete evaluations -/

/-- A well-formed service response: all six fields present, as strings. -/
def goodPrescriptionJson : Json :=
  .obj [ ("diagnosis", .str "You are grieving."),
         ("mode_name", .str "Avaz-e Dashti"),
         ("archetype", .str "The Shepherd"),
         ("neuroscience_mechanism", .str "Prolactin release."),
         ("search_query", .str "Kayhan Kalhor Dashti Improvisation"),
         ("activity_suggestion", .str "Sit by a window and listen.") ]

/-- A response whose six fields are all present but all empty strings. -/
def emptyFieldsJson : Json :=
  .obj [ ("diagnosis", .str ""),
         ("mode_name", .str ""),
         ("archetype", .str ""),
         ("neuroscience_mechanism", .str ""),
         ("search_query", .str ""),
         ("activity_suggestion", .str "") ]

/-- A malformed response: `diagnosis` is a nested object instead of text,
and four of the six required fields are missing entirely. -/
def missingFieldJson : Json :=
  .obj [ ("diagnosis", .obj [("nested", .str "oops")]),
         ("mode_name", .str "Dastgah-e Mahur") ]

/-- A service that always answers with the well-formed response. -/
def svcGood : ChatRequest → ServiceOutcome :=
  fun _ => .response (.jsonText goodPrescriptionJson)

/-- A service that always answers with the all-empty-fields response. -/
def svcEmptyFields : ChatRequest → ServiceOutcome :=
  fun _ => .response (.jsonText emptyFieldsJson)

/-- A service that always answers with the malformed response. -/
def svcMalformed : ChatRequest → ServiceOutcome :=
  fun _ => .response (.jsonText missingFieldJson)

/-- A service whose transport always fails. -/
def svcDown : ChatRequest → ServiceOutcome :=
  fun _ => .exception "Connection refused"

/-! ### Helper lemmas -/

/-- A string with no opening brace, i.e. no template placeholder. -/
abbrev noPlaceholderIn (s : String) : Prop := ∀ c ∈ s.data, c ≠ '{'

theorem string_data_append (a b : String) : (a ++ b).data = a.data ++ b.data := rfl

theorem noPlaceholderIn_append {a b : String}
    (ha : noPlaceholderIn a) (hb : noPlaceholderIn b) : noPlaceholderIn (a ++ b) := by
  intro c hc
  rw [string_data_append, List.mem_append] at hc
  rcases hc with h | h
  · exact ha c h
  · exact hb c h

set_option maxRecDepth 4000 in
theorem pharma_no_placeholder : noPlaceholderIn PHARMACOPEIA_CONTEXT := by
  unfold PHARMACOPEIA_CONTEXT
  repeat' apply noPlaceholderIn_append
  all_goals decide

theorem fmtGo_no_placeholder (vars : List (String × String)) :
    ∀ cs : List Char, (∀ c ∈ cs, c ≠ '{') → fmtGo vars cs none = cs := by
  intro cs h
  induction cs with
  | nil => rfl
  | cons c rest ih =>
      have hc : c ≠ '{' := h c (List.mem_cons_self c rest)
      simp [fmtGo, hc, ih fun x hx => h x (List.mem_cons_of_mem c hx)]

/-- Rendering a placeholder-free template returns it verbatim. -/
theorem formatTemplate_eq_self {s : String} (h : noPlaceholderIn s)
    (vars : List (String × String)) : formatTemplate s vars = s := by
  apply String.ext
  exact fmtGo_no_placeholder vars s.data h

set_option maxRecDepth 20000 in
/-- Rendering the human template splices the two variables verbatim. -/
theorem formatTemplate_human (i f : String) :
    formatTemplate humanTemplate [("input", i), ("format_instructions", f)]
      = "PATIENT SYMPTOMS: " ++ i
        ++ "\n\nAnalyze the symptoms and provide the prescription.\n" ++ f := by
  apply String.ext
  simp [formatTemplate, humanTemplate, fmtGo, lookupVar, List.lookup]

/-- Validation succeeds exactly when all six declared fields are present as
strings, and then the record carries those strings. -/
theorem validateMusicPrescription_ok_iff (j : Json) (r : MusicPrescription) :
    validateMusicPrescription j = .ok r ↔
      (getStrField j "diagnosis" = some r.diagnosis ∧
       getStrField j "mode_name" = some r.mode_name ∧
       getStrField j "archetype" = some r.archetype ∧
       getStrField j "neuroscience_mechanism" = some r.neuroscience_mechanism ∧
       getStrField j "search_query" = some r.search_query ∧
       getStrField j "activity_suggestion" = some r.activity_suggestion) := by
  obtain ⟨rd, rm, ra, rn, rs, rc⟩ := r
  unfold validateMusicPrescription
  rcases h1 : getStrField j "diagnosis" with _ | d <;>
  rcases h2 : getStrField j "mode_name" with _ | mn <;>
  rcases h3 : getStrField j "archetype" with _ | ar <;>
  rcases h4 : getStrField j "neuroscience_mechanism" with _ | nm <;>
  rcases h5 : getStrField j "search_query" with _ | sq <;>
  rcases h6 : getStrField j "activity_suggestion" with _ | ac <;>
  simp_all

/-! ### Claims -/

/-- C1 (counterexample): the validation does not check non-emptiness — a
service response whose six fields are all present but empty strings yields a
successful `MusicPrescription` with an empty `diagnosis` (and every other
field empty), refuting the claim that all six fields of a successful result
are non-empty. -/
theorem C1_counterexample :
    (get_persian_music_prescription "I lost my cat" "sk-test" svcEmptyFields).1
      = .prescription ⟨"", "", "", "", "", ""⟩ := rfl

/-- C1 (amended): every successful result of
`get_persian_music_prescription` comes from a JSON service response in which
all six fields are present as strings, and the record's fields are exactly
those strings; no record with a missing field is ever returned (but the
strings are not checked for non-emptiness). -/
theorem C1_success_fields_present (input key : String)
    (service : ChatRequest → ServiceOutcome) (r : MusicPrescription)
    (h : (get_persian_music_prescription input key service).1 = .prescription r) :
    ∃ j, service (mkRequest input key) = .response (.jsonText j) ∧
      getStrField j "diagnosis" = some r.diagnosis ∧
      getStrField j "mode_name" = some r.mode_name ∧
      getStrField j "archetype" = some r.archetype ∧
      getStrField j "neuroscience_mechanism" = some r.neuroscience_mechanism ∧
      getStrField j "search_query" = some r.search_query ∧
      getStrField j "activity_suggestion" = some r.activity_suggestion := by
  rcases hs : service (mkRequest input key) with raw | e
  · rcases raw with j | t
    · rcases hv : validateMusicPrescription j with e' | r'
      · exfalso
        simp [get_persian_music_prescription, hs, parsePrescriptionOutput, hv] at h
      · have hr : r' = r := by
          simpa [get_persian_music_prescription, hs, parsePrescriptionOutput, hv] using h
        subst hr
        exact ⟨j, rfl, (validateMusicPrescription_ok_iff j r').1 hv⟩
    · exfalso
      simp [get_persian_music_prescription, hs, parsePrescriptionOutput] at h
  · exfalso
    simp [get_persian_music_prescription, hs] at h

/-- C1 (witness): a fully-populated response produces a success, and the
theorem recovers the six fields from the response. -/
theorem C1_witness :
    ∃ j, svcGood (mkRequest "I lost my cat" "sk-test") = .response (.jsonText j) ∧
      getStrField j "diagnosis" = some "You are grieving." ∧
      getStrField j "mode_name" = some "Avaz-e Dashti" ∧
      getStrField j "archetype" = some "The Shepherd" ∧
      getStrField j "neuroscience_mechanism" = some "Prolactin release." ∧
      getStrField j "search_query" = some "Kayhan Kalhor Dashti Improvisation" ∧
      getStrField j "activity_suggestion" = some "Sit by a window and listen." :=
  C1_success_fields_present "I lost my cat" "sk-test" svcGood
    ⟨"You are grieving.", "Avaz-e Dashti", "The Shepherd", "Prolactin release.",
     "Kayhan Kalhor Dashti Improvisation", "Sit by a window and listen."⟩ rfl

/-- C2: for every input and every service behavior the call returns a value
(no exception escapes): a raised exception becomes the failure string
`"Error: " ++ e` carrying the underlying error text, a response the parser
rejects becomes the failure string carrying the parser's message, and a
response that validates becomes the parsed record — never a partial one. -/
theorem C2_failures_propagate (input key : String)
    (service : ChatRequest → ServiceOutcome) :
    (∀ e, service (mkRequest input key) = .exception e →
        (get_persian_music_prescription input key service).1
          = .errorString ("Error: " ++ e)) ∧
    (∀ raw m, service (mkRequest input key) = .response raw →
        parsePrescriptionOutput raw = .error m →
        (get_persian_music_prescription input key service).1
          = .errorString ("Error: " ++ m)) ∧
    (∀ raw r, service (mkRequest input key) = .response raw →
        parsePrescriptionOutput raw = .ok r →
        (get_persian_music_prescription input key service).1
          = .prescription r) := by
  refine ⟨fun e he => ?_, fun raw m hr hm => ?_, fun raw r hr ho => ?_⟩
  · simp [get_persian_music_prescription, he]
  · simp [get_persian_music_prescription, hr, hm]
  · simp [get_persian_music_prescription, hr, ho]

/-- C2 (witness): a transport failure surfaces as the failure string with
the transport error description. -/
theorem C2_witness :
    (get_persian_music_prescription "I feel anxious" "sk-test" svcDown).1
      = .errorString ("Error: " ++ "Connection refused") :=
  (C2_failures_propagate "I feel anxious" "sk-test" svcDown).1 "Connection refused" rfl

/-- A schema-violating raw response: plain prose with no decodable JSON, or
JSON in which some required field is missing or is not a string (e.g. a
nested object where text is expected). -/
def schemaViolating : RawResponse → Prop
  | .prose _ => True
  | .jsonText j => ∃ name ∈ requiredFieldNames, getStrField j name = none

/-- C3: every schema-violating response is rejected by the parse-and-validate
step, and the call surfaces a failure string (never a fabricated record and
never a crash). -/
theorem C3_schema_rejection (input key : String)
    (service : ChatRequest → ServiceOutcome) (raw : RawResponse)
    (hr : service (mkRequest input key) = .response raw)
    (hbad : schemaViolating raw) :
    ∃ e, (get_persian_music_prescription input key service).1
        = .errorString ("Error: " ++ e) := by
  rcases raw with j | t
  · rcases hv : validateMusicPrescription j with e' | r
    · exact ⟨e', by simp [get_persian_music_prescription, hr, parsePrescriptionOutput, hv]⟩
    · exfalso
      have h6 := (validateMusicPrescription_ok_iff j r).1 hv
      simp only [schemaViolating] at hbad
      obtain ⟨name, hmem, hnone⟩ := hbad
      simp [requiredFieldNames, musicPrescriptionSchema] at hmem
      rcases hmem with h | h | h | h | h | h <;> subst h <;> simp_all
  · exact ⟨"Invalid json output: " ++ t,
      by simp [get_persian_music_prescription, hr, parsePrescriptionOutput]⟩

/-- C3 (witness): the malformed response (nested object for `diagnosis`,
four fields missing) is rejected and surfaces as a failure string. -/
theorem C3_witness :
    ∃ e, (get_persian_music_prescription "help me focus" "sk-test" svcMalformed).1
        = .errorString ("Error: " ++ e) :=
  C3_schema_rejection "help me focus" "sk-test" svcMalformed
    (.jsonText missingFieldJson) rfl
    (by simp only [schemaViolating]; exact ⟨"archetype", by decide, rfl⟩)

/-- C4: when the access credential is missing (unset environment variable)
or empty (Python falsy), the program reports the configuration message and
makes zero invocations of the external service. -/
theorem C4_missing_key_no_invocations (env_key : Option String)
    (service : ChatRequest → ServiceOutcome)
    (h : env_key = none ∨ env_key = some "") :
    mainProgram env_key service
      = (.configError "Please set your OPENAI_API_KEY environment variable.", []) := by
  rcases h with h | h <;> subst h <;> simp [mainProgram]

/-- C4 (witness): with the variable unset, the configuration error is
reported and the (would-be failing) service is never invoked. -/
theorem C4_witness :
    mainProgram none (fun _ => ServiceOutcome.exception "unreachable")
      = (.configError "Please set your OPENAI_API_KEY environment variable.", []) :=
  C4_missing_key_no_invocations none _ (Or.inl rfl)

/-- C5: for every user input, the submitted request is exactly the knowledge
base verbatim as the system message plus a human message consisting of the
literal user input (spliced as-is, with no validation or transformation)
framed by the fixed symptom text and the schema instructions; and the schema
names exactly the six record fields. -/
theorem C5_request_construction (input key : String) :
    (mkRequest input key).messages
      = [ ChatMessage.system PHARMACOPEIA_CONTEXT,
          ChatMessage.human ("PATIENT SYMPTOMS: " ++ input
            ++ "\n\nAnalyze the symptoms and provide the prescription.\n"
            ++ get_format_instructions) ] ∧
    requiredFieldNames
      = [ "diagnosis", "mode_name", "archetype", "neuroscience_mechanism",
          "search_query", "activity_suggestion" ] := by
  constructor
  · show promptMessages (invokeVars input) = _
    unfold promptMessages invokeVars
    rw [formatTemplate_eq_self pharma_no_placeholder, formatTemplate_human]
  · rfl

/-- C6: every call uses the same fixed configuration — temperature exactly
the literal 0.7 (not zero), model "gpt-4-turbo", a single non-streaming
call — and the configuration does not depend on the user input. -/
theorem C6_fixed_service_configuration (input input2 key : String) :
    (mkRequest input key).config.temperature = 7/10 ∧
    (mkRequest input key).config.temperature ≠ 0 ∧
    (mkRequest input key).config.model = "gpt-4-turbo" ∧
    (mkRequest input key).config.streaming = false ∧
    (mkRequest input key).config = (mkRequest input2 key).config := by
  refine ⟨rfl, ?_, rfl, rfl, rfl⟩
  show (7 : ℚ)/10 ≠ 0
  norm_num

/-- C7: every call invokes the external service exactly once (so never
retries after a failure), and in a sequence of calls each result is that of
a fresh, independent call on its own input (no state across calls). -/
theorem C7_single_invocation_stateless (input key : String)
    (service : ChatRequest → ServiceOutcome) (inputs : List String) (k : ℕ) :
    (get_persian_music_prescription input key service).2.length = 1 ∧
    (runCalls key service inputs)[k]?
      = (inputs[k]?).map
          (fun i => (get_persian_music_prescription i key service).1) := by
  constructor
  · rcases hs : service (mkRequest input key) with raw | e
    · rcases hp : parsePrescriptionOutput raw with e' | r <;>
        simp [get_persian_music_prescription, hs, hp]
    · simp [get_persian_music_prescription, hs]
  · simp [runCalls]

/-- C8: the knowledge base is a fixed constant: template rendering hands it
to the service verbatim whatever the variables are, and every call's system
message is that same text, independent of the input. -/
theorem C8_knowledge_base_immutable (input key : String)
    (vars : List (String × String)) :
    formatTemplate PHARMACOPEIA_CONTEXT vars = PHARMACOPEIA_CONTEXT ∧
    (mkRequest input key).messages.head?
      = some (ChatMessage.system PHARMACOPEIA_CONTEXT) := by
  refine ⟨formatTemplate_eq_self pharma_no_placeholder vars, ?_⟩
  show (promptMessages (invokeVars input)).head? = _
  unfold promptMessages
  rw [formatTemplate_eq_self pharma_no_placeholder]
  rfl

/-- C9: the result is an untagged union distinguished by runtime type: a
`MusicPrescription` on success, or a plain string that always begins with
"Error: " followed by the exception text on failure — never any other
sentinel. -/
theorem C9_untagged_union_result (input key : String)
    (service : ChatRequest → ServiceOutcome) :
    (∃ r, (get_persian_music_prescription input key service).1 = .prescription r) ∨
    (∃ e, (get_persian_music_prescription input key service).1
        = .errorString ("Error: " ++ e)) := by
  rcases hs : service (mkRequest input key) with raw | e
  · rcases hp : parsePrescriptionOutput raw with e' | r
    · exact Or.inr ⟨e', by simp [get_persian_music_prescription, hs, hp]⟩
    · exact Or.inl ⟨r, by simp [get_persian_music_prescription, hs, hp]⟩
  · exact Or.inr ⟨e, by simp [get_persian_music_prescription, hs]⟩

/-- C10: no precondition is enforced on the user input: the empty string is
submitted to the service exactly like any other input (one ordinary request,
no input-validation error), and against a fixed service behavior it yields
the same result as any other input. -/
theorem C10_empty_input_ordinary_path (key : String)
    (service : ChatRequest → ServiceOutcome) (o : ServiceOutcome) (input : String) :
    (get_persian_music_prescription "" key service).2 = [mkRequest "" key] ∧
    (get_persian_music_prescription "" key (fun _ => o)).1
      = (get_persian_music_prescription input key (fun _ => o)).1 := by
  constructor
  · rcases hs : service (mkRequest "" key) with raw | e
    · rcases hp : parsePrescriptionOutput raw with e' | r <;>
        simp [get_persian_music_prescription, hs, hp]
    · simp [get_persian_music_prescription, hs]
  · rcases o with raw | e
    · rcases hp : parsePrescriptionOutput raw with e' | r <;>
        simp [get_persian_music_prescription, hp]
    · simp [get_persian_music_prescription]

end DrRadif
